import Mathlib

/-!
Verification of the content discovery and rendering pipeline of the
devon_bray_portfolio repository.

The live pipeline is the package devon_bray_portfolio.content_api
(load_portfolio.py, images.py, schema.py, markdown_render.py), which is what
main.py and web_view/app.py import; the package devon_bray_portfolio.content
is an unimported historical snapshot of the same design.  The embedding below
follows content_api.

Embedding conventions:
* Python strings are Lean `String`; the character-level helpers below
  (lexicographic comparison, title casing, substring replacement, basename
  extraction) are written over `List Char` so that they reduce inside the
  kernel.  All text the pipeline handles is ASCII.
* `datetime.date` values are embedded as a `Date` structure of three `Nat`
  fields with the lexicographic strict order used by Python date comparison.
* The third-party markdown library is a pure deterministic text transform
  whose output no claim depends on; it is embedded as the identity function.
* Reading a YAML tree from disk is split in two layers, as in the source: the
  directory scan (`_find_yaml`) and the schema validation
  (`read_portfolio_element`) are modelled over explicit directory listings and
  raw key-value mappings, while `discover_portfolio` and its helpers are
  modelled over the already validated on-disk tree (`PortfolioDir`), which
  records for every directory the validated descriptor together with the
  names the filesystem contributes (directory name, descriptor file stem).
* Python `sorted` is a stable sort; it is embedded as an insertion sort that
  is proved sorted and stable below, which characterises the output uniquely.
* A Python dict comprehension keeps, for every key, the value computed at the
  key value that occurs last; the neighbor lookup is embedded accordingly.
* The PIL image transforms in images.py are external codec work; for the
  media cache claim they are embedded as an abstract byte transform over an
  explicit output-directory state, together with counters of source reads and
  disk writes.
-/

/-! ## Character-level string helpers -/

/-- Lexicographic strict comparison of character lists by code point, the
order Python uses to compare strings. -/
def chars_lt : List Char → List Char → Bool
  | [], [] => false
  | [], _ :: _ => true
  | _ :: _, [] => false
  | a :: as, b :: bs =>
    if a.toNat < b.toNat then true
    else if b.toNat < a.toNat then false
    else chars_lt as bs

/-- Python string comparison, as used by `sorted` on strings. -/
def str_lt (a b : String) : Bool :=
  chars_lt a.data b.data

/-- Embedding of Python str.title, used by `_capitalize_string` in
load_portfolio.py: a letter that follows a non-letter is upper-cased, a
letter that follows a letter is lower-cased, other characters pass through. -/
def _capitalize_string (s : String) : String :=
  String.mk ((s.data.foldl (fun (acc : List Char × Bool) c =>
    let t := if c.isAlpha then (if acc.2 then c.toLower else c.toUpper) else c
    (acc.1 ++ [t], c.isAlpha)) (([] : List Char), false)).1)

/-- Whether `pat` is a prefix of `l`, by code points. -/
def chars_is_pre : List Char → List Char → Bool
  | [], _ => true
  | _ :: _, [] => false
  | p :: ps, c :: cs => if p = c then chars_is_pre ps cs else false

/-- One fuelled pass of left-to-right non-overlapping replacement of `pat` by
`rep`, the behaviour of Python str.replace.  The fuel is the length of the
scanned list, which bounds the recursion depth. -/
def chars_replace_fuel (pat rep : List Char) : Nat → List Char → List Char
  | 0, l => l
  | _ + 1, [] => []
  | n + 1, c :: cs =>
    if chars_is_pre pat (c :: cs) then
      rep ++ chars_replace_fuel pat rep n (List.drop (pat.length - 1) cs)
    else
      c :: chars_replace_fuel pat rep n cs

/-- Python str.replace on strings (all non-overlapping occurrences,
left to right). -/
def str_replace (s pat rep : String) : String :=
  String.mk (chars_replace_fuel pat.data rep.data s.data.length s.data)

/-- Whether `pat` occurs in `l`, the Python `in` test on strings. -/
def chars_contains : List Char → List Char → Bool
  | [], _ => false
  | c :: cs, pat => if chars_is_pre pat (c :: cs) then true else chars_contains cs pat

/-- Python substring containment `pat in s` for non-empty `pat`. -/
def str_contains (s pat : String) : Bool :=
  chars_contains s.data pat.data

/-- Basename of a POSIX path string: the characters after the last slash.
Embeds pathlib `.name` for the relative media paths the pipeline handles. -/
def path_name (p : String) : String :=
  String.mk (p.data.foldl (fun acc c => if c = '/' then [] else acc ++ [c]) [])

/-- File extension of a path, including the leading dot, empty when the
basename holds no dot.  Embeds pathlib `.suffix` for the resume path; the
leading-dot hidden-file edge case is outside every claim. -/
def path_suffix (p : String) : String :=
  String.mk ((path_name p).data.foldl
    (fun acc c =>
      if c = '.' then ['.'] else if acc.isEmpty then [] else acc ++ [c]) [])

/-- Whether a string ends with a period, the check Python
value.endswith applies in ValidatedString. -/
def ends_in_period (s : String) : Bool :=
  match s.data.getLast? with
  | some c => c = '.'
  | none => false

/-! ## Dates -/

/-- A calendar date as read from the YAML completion_date field.  Python
datetime.date compares lexicographically on (year, month, day). -/
structure Date where
  year : Nat
  month : Nat
  day : Nat
deriving DecidableEq, Repr, Inhabited

/-- Strict order on dates, the comparison `sorted` uses on completion
dates. -/
def Date.lt (a b : Date) : Prop :=
  a.year < b.year ∨ (a.year = b.year ∧
    (a.month < b.month ∨ (a.month = b.month ∧ a.day < b.day)))

instance (a b : Date) : Decidable (Date.lt a b) := by
  unfold Date.lt
  infer_instance

/-- Non-strict order on dates. -/
def Date.le (a b : Date) : Prop :=
  Date.lt a b ∨ a = b

instance (a b : Date) : Decidable (Date.le a b) := by
  unfold Date.le
  infer_instance

/-- English month names, as produced by strftime %B; datetime guarantees the
month is between 1 and 12. -/
def month_name : Nat → String
  | 1 => "January"
  | 2 => "February"
  | 3 => "March"
  | 4 => "April"
  | 5 => "May"
  | 6 => "June"
  | 7 => "July"
  | 8 => "August"
  | 9 => "September"
  | 10 => "October"
  | 11 => "November"
  | 12 => "December"
  | _ => ""

/-! ## Schema enumerations (content_api/schema.py) -/

/-- EntrySize enum. -/
inductive EntrySize
  | small
  | medium
  | large
deriving DecidableEq, Repr, Inhabited

/-- The .value string of an EntrySize member. -/
def EntrySize.val : EntrySize → String
  | .small => "small"
  | .medium => "medium"
  | .large => "large"

/-- Domain enum. -/
inductive Domain
  | hardware
  | software
  | mixed_hardware_software
  | social
deriving DecidableEq, Repr, Inhabited

/-- The .value string of a Domain member. -/
def Domain.val : Domain → String
  | .hardware => "hardware"
  | .software => "software"
  | .mixed_hardware_software => "mixed (hardware, software)"
  | .social => "social"

/-- TeamSize enum. -/
inductive TeamSize
  | solo
  | small_group
  | large_group
deriving DecidableEq, Repr, Inhabited

/-- The .value string of a TeamSize member. -/
def TeamSize.val : TeamSize → String
  | .solo => "solo"
  | .small_group => "small group"
  | .large_group => "large group"

/-- Medium enum, the controlled vocabulary of medium tags. -/
inductive Medium
  | laser_cutter
  | printer_3d
  | arduino
  | fritzing
  | breadboard_electronics
  | protoboard_electronics
  | pcb_electronics
  | electrical_cad
  | mechanical_cad
  | c_sharp
  | python
  | raspberry_pi
  | led_art
  | twitter
  | frontend_web_development
  | photography
  | events
  | apparel
  | artificial_intelligence
deriving DecidableEq, Repr, Inhabited

/-- The .value string of a Medium member. -/
def Medium.val : Medium → String
  | .laser_cutter => "laser cutter"
  | .printer_3d => "3d printer"
  | .arduino => "arduino"
  | .fritzing => "fritzing"
  | .breadboard_electronics => "breadboard electronics"
  | .protoboard_electronics => "protoboard electronics"
  | .pcb_electronics => "pcb electronics"
  | .electrical_cad => "electrical cad"
  | .mechanical_cad => "mechanical cad"
  | .c_sharp => "c#"
  | .python => "python"
  | .raspberry_pi => "raspberry pi"
  | .led_art => "led art"
  | .twitter => "twitter"
  | .frontend_web_development => "frontend web development"
  | .photography => "photography"
  | .events => "events"
  | .apparel => "apparel"
  | .artificial_intelligence => "artificial intelligence"

/-! ## Schema records (content_api/schema.py) -/

/-- LocalMedia TypedDict: a label and a path relative to the YAML that
references the media. -/
structure LocalMedia where
  label : String
  path : String
deriving DecidableEq, Repr, Inhabited

/-- Link TypedDict: a label and an already validated URL, held as the string
it prints as. -/
structure Link where
  label : String
  link : String
deriving DecidableEq, Repr, Inhabited

/-- YouTubeVideo TypedDict. -/
structure YouTubeVideo where
  label : String
  video_id : String
deriving DecidableEq, Repr, Inhabited

/-- SerializedEntry: the validated form of an entry YAML. -/
structure SerializedEntry where
  version_number : Nat
  title : String
  description : String
  explanation : String
  featured_media : LocalMedia
  local_media : Option (List LocalMedia)
  youtube_videos : Option (List YouTubeVideo)
  size : EntrySize
  domain : Domain
  primary_url : Link
  secondary_urls : Option (List Link)
  press_urls : Option (List Link)
  completion_date : Date
  team_size : TeamSize
  involvement : String
  mediums : List Medium
  visible : Bool
deriving DecidableEq, Repr, Inhabited

/-- SerializedSectionDescription: the validated form of a section YAML.  The
pydantic Color is held as the normalized string it prints as. -/
structure SerializedSectionDescription where
  version_number : Nat
  title : String
  description : String
  primary_color : String
  logo : LocalMedia
  rank : Int
deriving DecidableEq, Repr, Inhabited

/-- SerializedPortfolioDescription: the validated form of the top-level
YAML.  header_background is declared Optional in the schema but is rendered
unconditionally by discover_portfolio, so it is embedded as present. -/
structure SerializedPortfolioDescription where
  version_number : Nat
  title : String
  description : String
  explanation : String
  conclusion : String
  email : String
  contact_urls : List Link
  header_top_image : LocalMedia
  header_bottom_image : LocalMedia
  return_image : LocalMedia
  icon : LocalMedia
  resume_path : Option String
  portrait : LocalMedia
  header_background : LocalMedia
deriving DecidableEq, Repr, Inhabited

/-! ## Rendered records (content_api/load_portfolio.py, images.py) -/

/-- RenderedLocalMedia named tuple from images.py. -/
structure RenderedLocalMedia where
  label : String
  path : String
deriving DecidableEq, Repr, Inhabited

/-- RenderedLink named tuple. -/
structure RenderedLink where
  label : String
  link : String
deriving DecidableEq, Repr, Inhabited

/-- RenderedYouTubeVideo named tuple. -/
structure RenderedYouTubeVideo where
  label : String
  video_id : String
deriving DecidableEq, Repr, Inhabited

/-- RenderedEntryWithoutNeighbors named tuple. -/
structure RenderedEntryWithoutNeighbors where
  slug : String
  title : String
  description : String
  explanation : String
  featured_media : RenderedLocalMedia
  local_media : Option (List RenderedLocalMedia)
  youtube_videos : Option (List RenderedYouTubeVideo)
  size : String
  domain : String
  primary_url : RenderedLink
  secondary_urls : Option (List RenderedLink)
  press_urls : Option (List RenderedLink)
  completion_date : Date
  completion_date_verbose : String
  completion_year : String
  team_size : String
  involvement : String
  mediums : List String
  primary_color : String
  favicon_path : String
  top_image : RenderedLocalMedia
  visible : Bool
deriving DecidableEq, Repr, Inhabited

/-- RenderedEntry named tuple: RenderedEntryWithoutNeighbors plus the two
optional neighbor references. -/
structure RenderedEntry where
  slug : String
  title : String
  description : String
  explanation : String
  featured_media : RenderedLocalMedia
  local_media : Option (List RenderedLocalMedia)
  youtube_videos : Option (List RenderedYouTubeVideo)
  size : String
  domain : String
  primary_url : RenderedLink
  secondary_urls : Option (List RenderedLink)
  press_urls : Option (List RenderedLink)
  completion_date : Date
  completion_date_verbose : String
  completion_year : String
  team_size : String
  involvement : String
  mediums : List String
  primary_color : String
  favicon_path : String
  top_image : RenderedLocalMedia
  visible : Bool
  previous_entry : Option RenderedEntryWithoutNeighbors
  next_entry : Option RenderedEntryWithoutNeighbors
deriving DecidableEq, Repr, Inhabited

/-- SectionIncompleteEntries named tuple. -/
structure SectionIncompleteEntries where
  title : String
  description : String
  entries : List RenderedEntryWithoutNeighbors
  primary_color : String
  logo : RenderedLocalMedia
  rank : Int
deriving DecidableEq, Repr, Inhabited

/-- Section named tuple. -/
structure Section where
  title : String
  description : String
  entries : List RenderedEntry
  primary_color : String
  logo : RenderedLocalMedia
  rank : Int
deriving DecidableEq, Repr, Inhabited

/-- Portfolio named tuple.  contact_urls follows the actual value produced by
_render_link_list, which is None for an empty list. -/
structure Portfolio where
  title : String
  description : String
  explanation : String
  conclusion : String
  sections : List Section
  contact_urls : Option (List RenderedLink)
  email : String
  header_top_image : RenderedLocalMedia
  header_bottom_image : RenderedLocalMedia
  icon : RenderedLocalMedia
  resume_path : Option String
  portrait : RenderedLocalMedia
  header_background : RenderedLocalMedia
deriving DecidableEq, Repr, Inhabited

/-! ## Rendering helpers (content_api/load_portfolio.py) -/

/-- render_markdown from markdown_render.py calls the external markdown
library with the new-tab extension.  It is a pure deterministic text
transform whose output no claim constrains; it is embedded as the identity
on the text. -/
def render_markdown (text : String) : String :=
  text

/-- _render_link: serialized link to rendered link, the URL printed as a
plain string. -/
def _render_link (url : Link) : RenderedLink :=
  { label := url.label, link := url.link }

/-- _render_date: strftime of the completion date, month-of-year form when
verbose, bare year otherwise. -/
def _render_date (d : Date) (verbose : Bool) : String :=
  if verbose then month_name d.month ++ " of " ++ toString d.year
  else toString d.year

/-- The inner convert of _render_mediums: the first matching acronym
replacement is applied and the loop returns. -/
def convert_medium (medium : String) : String :=
  if str_contains medium "3d" then str_replace medium "3d" "3D"
  else if str_contains medium "Cad" then str_replace medium "Cad" "CAD"
  else if str_contains medium "Led" then str_replace medium "Led" "LED"
  else if str_contains medium "Pcb" then str_replace medium "Pcb" "PCB"
  else medium

/-- _render_link_list: None stays None and, because an empty Python list is
falsy, an empty list also renders to None. -/
def _render_link_list (link_list : Option (List Link)) : Option (List RenderedLink) :=
  match link_list with
  | none => none
  | some l => if l.isEmpty then none else some (l.map _render_link)

/-! ## Stable sorting

Python sorted is stable; sorted with reverse=True is the stable sort for the
reversed strict comparison.  The insertion sort below, driven by a Bool
strict comparison, places each element before the equals already in the
sorted suffix built from the later input elements, which is exactly stable
behaviour; the sortedness, permutation and stability theorems proved later
characterise the output uniquely, so this is the semantics of sorted. -/

/-- Insert `x` in front of the first element `y` with `lt y x` false. -/
def insert_sorted (lt : α → α → Bool) (x : α) : List α → List α
  | [] => [x]
  | y :: ys => if lt y x then y :: insert_sorted lt x ys else x :: y :: ys

/-- Stable insertion sort for the strict comparison `lt`. -/
def stable_sort (lt : α → α → Bool) : List α → List α
  | [] => []
  | x :: xs => insert_sorted lt x (stable_sort lt xs)

/-- The strict comparison of sorted by section rank (ascending). -/
def rank_lt (s1 s2 : SectionIncompleteEntries) : Bool :=
  decide (s1.rank < s2.rank)

/-- The strict comparison of sorted by completion date with reverse=True
(descending). -/
def date_desc (e1 e2 : RenderedEntryWithoutNeighbors) : Bool :=
  decide (Date.lt e2.completion_date e1.completion_date)

/-- _render_mediums: title-case every tag value, apply the acronym
replacement table, and sort the results as strings.  No deduplication takes
place. -/
def _render_mediums (mediums : List Medium) : List String :=
  stable_sort str_lt ((mediums.map (fun m => _capitalize_string m.val)).map convert_medium)

/-! ## Media transform (content_api/images.py)

render_local_media resolves the output name, skips all work when the output
file already exists and no forced rewrite is requested, and otherwise reads
the source image, transforms it and writes the result.  The PIL transform
itself (thumbnailing, EXIF transposition, alpha flattening, per-frame
handling) is external codec work embedded as an abstract byte transform
argument; the output directory is an explicit state and the embedding counts
source reads and disk writes. -/

/-- ImageConfig named tuple from images.py. -/
structure ImageConfig where
  max_dimensions : Nat × Nat
  quality : Nat
  force_rewrite : Bool
deriving DecidableEq, Repr, Inhabited

/-- The contents of the destination media directory: file name to file
bytes, bytes abstracted as Nat. -/
structure MediaDir where
  files : List (String × Nat)
deriving DecidableEq, Repr, Inhabited

/-- Whether a file of the given name exists in the directory, the
output_path.exists() test. -/
def has_file (dir : MediaDir) (name : String) : Bool :=
  dir.files.any (fun f => f.1 = name)

/-- Write (or overwrite) a file in the directory, the PIL save call. -/
def write_file (dir : MediaDir) (name : String) (content : Nat) : MediaDir :=
  { files := (name, content) :: dir.files.filter (fun f => ¬ f.1 = name) }

/-- The output file name computed by render_local_media: the basename of the
source media path, unless a new file name is given. -/
def output_name (new_file_name : Option String) (local_media : LocalMedia) : String :=
  match new_file_name with
  | none => path_name local_media.path
  | some n => n

/-- Everything one call of render_local_media produces: the returned named
tuple, the final directory state, and how many source reads and disk writes
were performed. -/
structure MediaCallResult where
  value : RenderedLocalMedia
  dir : MediaDir
  source_reads : Nat
  disk_writes : Nat
deriving DecidableEq, Repr, Inhabited

/-- render_local_media from images.py.  `transform` is the PIL resize
pipeline, `source_bytes` the source image content. -/
def render_local_media (transform : Nat → Nat) (dir : MediaDir)
    (new_file_name : Option String) (image_config : ImageConfig)
    (source_bytes : Nat) (local_media : LocalMedia) : MediaCallResult :=
  if ¬ has_file dir (output_name new_file_name local_media) ∨ image_config.force_rewrite then
    { value := { label := render_markdown local_media.label
                 path := output_name new_file_name local_media }
      dir := write_file dir (output_name new_file_name local_media) (transform source_bytes)
      source_reads := 1
      disk_writes := 1 }
  else
    { value := { label := render_markdown local_media.label
                 path := output_name new_file_name local_media }
      dir := dir
      source_reads := 0
      disk_writes := 0 }

/-- The returned value of render_local_media, which is the same on the cache
hit and cache miss paths.  The discovery pipeline below tracks these values;
the file-system effects concern only the media transform claim. -/
def rendered_media (new_file_name : Option String) (local_media : LocalMedia) :
    RenderedLocalMedia :=
  { label := render_markdown local_media.label
    path := output_name new_file_name local_media }

/-! ## Directory scanning (_find_yaml) -/

/-- A directory entry as the glob sees it: basename stem and extension. -/
structure FileName where
  stem : String
  ext : String
deriving DecidableEq, Repr, Inhabited

/-- _find_yaml: glob the directory listing for files with the yaml
extension, error when more than one or none is found, and return the single
match otherwise. -/
def _find_yaml (directory : List FileName) : Except String FileName :=
  let yaml_paths := directory.filter (fun f => f.ext = "yaml")
  if yaml_paths.length > 1 then
    .error "Found too many yaml files in dir"
  else
    match yaml_paths with
    | [] => .error "No yaml found in directory"
    | y :: _ => .ok y

/-! ## Schema validation (content_api/schema.py read_portfolio_element)

The pydantic machinery is external library code; the embedding keeps the
checks the repository configures and relies on: the models inherit
Config.extra = forbid from InputReader, so a key outside the declared fields
of the target record makes validation fail, and the description field is a
ValidatedString whose first validator requires a trailing period (the second
validator only prints spelling advisories and returns the value unchanged).
Remaining field validations (URLs, dates, enum members, email) belong to the
library and are not modelled.  A raw YAML mapping is embedded as an
association list of string keys to scalar values; only the description value
is ever inspected, so values are strings. -/

/-- The three target record kinds of read_portfolio_element. -/
inductive ElementKind
  | entry
  | sectionDescription
  | portfolioDescription
deriving DecidableEq, Repr, Inhabited

/-- The Python class name of a record kind. -/
def kind_name : ElementKind → String
  | .entry => "SerializedEntry"
  | .sectionDescription => "SerializedSectionDescription"
  | .portfolioDescription => "SerializedPortfolioDescription"

/-- The declared field names of each record type, those of InputReader plus
the subclass fields, from content_api/schema.py. -/
def declared_fields : ElementKind → List String
  | .entry =>
    ["version_number", "title", "description", "explanation", "featured_media",
     "local_media", "youtube_videos", "size", "domain", "primary_url",
     "secondary_urls", "press_urls", "completion_date", "team_size",
     "involvement", "mediums", "visible"]
  | .sectionDescription =>
    ["version_number", "title", "description", "primary_color", "logo", "rank"]
  | .portfolioDescription =>
    ["version_number", "title", "description", "explanation", "conclusion",
     "email", "contact_urls", "header_top_image", "header_bottom_image",
     "return_image", "icon", "resume_path", "portrait", "header_background"]

/-- ValidatedString.ends_with_period: reject a value that does not end with
a period, return it unchanged otherwise. -/
def ends_with_period (value : String) : Except String String :=
  if ends_in_period value then .ok value
  else .error "Descriptions must end with a period!"

/-- ValidatedString.warn_on_misspelling prints spelling advisories and
returns the value unchanged; the print is a dropped effect. -/
def warn_on_misspelling (value : String) : String :=
  value

/-- The ValidatedString validator chain. -/
def validated_string (value : String) : Except String String :=
  (ends_with_period value).map warn_on_misspelling

/-- The wrapper message of read_portfolio_element, carrying the target
record kind and the offending file path.  The source text reads: Could not
validate to schema: kind, file: path. -/
def validation_message (kind : ElementKind) (yaml_path : String) : String :=
  "Could not validate to schema: " ++ kind_name kind ++ " file: " ++ yaml_path

/-- read_portfolio_element over a raw mapping: pydantic validation with
extra = forbid and the ValidatedString description check, every validation
failure re-raised as the wrapper error naming the record kind and the file.
Returns the validated description value. -/
def read_portfolio_element (kind : ElementKind) (yaml_path : String)
    (raw : List (String × String)) : Except String String :=
  if raw.all (fun kv => (declared_fields kind).contains kv.1) then
    match raw.lookup "description" with
    | none => .error (validation_message kind yaml_path)
    | some v =>
      match validated_string v with
      | .ok s => .ok s
      | .error _ => .error (validation_message kind yaml_path)
  else
    .error (validation_message kind yaml_path)

/-! ## The validated on-disk tree -/

/-- An entry directory: its directory name, the stem of the single YAML
descriptor found inside it, and the validated descriptor content. -/
structure EntryDir where
  dirName : String
  yamlStem : String
  entry : SerializedEntry
deriving DecidableEq, Repr, Inhabited

/-- A section directory: its single YAML descriptor and its entry
subdirectories in directory iteration order. -/
structure SectionDir where
  dirName : String
  yamlStem : String
  sd : SerializedSectionDescription
  entryDirs : List EntryDir
deriving DecidableEq, Repr, Inhabited

/-- The sections directory: the validated portfolio descriptor and the
section subdirectories in directory iteration order. -/
structure PortfolioDir where
  pd : SerializedPortfolioDescription
  sectionDirs : List SectionDir
deriving DecidableEq, Repr, Inhabited

/-! ## Discovery (content_api/load_portfolio.py) -/

/-- _read_entry_from_disk: build a RenderedEntryWithoutNeighbors from the
validated entry descriptor.  The slug is the name of the YAML descriptor
file with the extension removed.  The gallery media are rendered by a worker
pool whose map preserves order, embedded as List.map. -/
def _read_entry_from_disk (primary_color : String)
    (return_button_image : RenderedLocalMedia) (ed : EntryDir) :
    RenderedEntryWithoutNeighbors :=
  let serialized_entry := ed.entry
  let slug := ed.yamlStem
  { slug := slug
    title := serialized_entry.title
    description := serialized_entry.description
    explanation := render_markdown serialized_entry.explanation
    featured_media := rendered_media none serialized_entry.featured_media
    local_media := serialized_entry.local_media.map (List.map (rendered_media none))
    youtube_videos := serialized_entry.youtube_videos.map (List.map (fun video =>
      { label := render_markdown video.label, video_id := video.video_id }))
    size := serialized_entry.size.val
    domain := _capitalize_string serialized_entry.domain.val
    primary_url := _render_link serialized_entry.primary_url
    secondary_urls := _render_link_list serialized_entry.secondary_urls
    press_urls := _render_link_list serialized_entry.press_urls
    completion_date := serialized_entry.completion_date
    completion_date_verbose := _render_date serialized_entry.completion_date true
    completion_year := _render_date serialized_entry.completion_date false
    team_size := _capitalize_string serialized_entry.team_size.val
    involvement := serialized_entry.involvement
    mediums := _render_mediums serialized_entry.mediums
    primary_color := primary_color
    favicon_path := slug ++ "_icon.png"
    top_image := return_button_image
    visible := serialized_entry.visible }

/-- The per-section entry list before the completion-date sort, in directory
iteration order. -/
def entries_unsorted (return_button_image : RenderedLocalMedia) (sd : SectionDir) :
    List RenderedEntryWithoutNeighbors :=
  sd.entryDirs.map (_read_entry_from_disk sd.sd.primary_color return_button_image)

/-- _read_section_from_disk: render the section descriptor and its entries,
the entries sorted by completion date descending. -/
def _read_section_from_disk (return_button_image : RenderedLocalMedia)
    (sd : SectionDir) : SectionIncompleteEntries :=
  { title := sd.sd.title
    description := render_markdown sd.sd.description
    entries := stable_sort date_desc (entries_unsorted return_button_image sd)
    primary_color := sd.sd.primary_color
    logo := rendered_media none sd.sd.logo
    rank := sd.sd.rank }

/-- The shared return-button image rendered once from the portfolio
descriptor and passed to every entry as top_image. -/
def return_button_image (d : PortfolioDir) : RenderedLocalMedia :=
  rendered_media none d.pd.return_image

/-- The sections as rendered in directory iteration order, before the rank
sort. -/
def unsorted_sections (d : PortfolioDir) : List SectionIncompleteEntries :=
  d.sectionDirs.map (_read_section_from_disk (return_button_image d))

/-- The sections sorted by rank ascending. -/
def sorted_sections (d : PortfolioDir) : List SectionIncompleteEntries :=
  stable_sort rank_lt (unsorted_sections d)

/-- The flattened entry sequence: all entries of all sections in
section-rank order, before any visibility filtering; the
itertools.chain.from_iterable list of discover_portfolio. -/
def flat_entries (d : PortfolioDir) : List RenderedEntryWithoutNeighbors :=
  ((sorted_sections d).map (fun s => s.entries)).flatten

/-- at_index from discover_portfolio: the entry at a signed index, None when
the index is negative or past the end. -/
def at_index (entries : List RenderedEntryWithoutNeighbors) (i : Int) :
    Option RenderedEntryWithoutNeighbors :=
  if i < 0 then none else entries.get? i.toNat

/-- The neighbor lookup dict of discover_portfolio: for each entry value the
pair (at_index (index - 1), at_index (index + 1)).  The dict is keyed by the
entry value, so when equal entries occur the value computed at the last
index survives; a key outside the list (impossible for the entries the
pipeline looks up) maps to the empty pair. -/
def neighbor_lookup (entries : List RenderedEntryWithoutNeighbors)
    (e : RenderedEntryWithoutNeighbors) :
    Option RenderedEntryWithoutNeighbors × Option RenderedEntryWithoutNeighbors :=
  match (entries.enum.filter (fun p => decide (p.2 = e))).getLast? with
  | some (i, _) => (at_index entries ((i : Int) - 1), at_index entries ((i : Int) + 1))
  | none => (none, none)

/-- _fill_entry_neighbors: promote a RenderedEntryWithoutNeighbors to a
RenderedEntry carrying the two neighbors. -/
def _fill_entry_neighbors (entry : RenderedEntryWithoutNeighbors)
    (previous_next : Option RenderedEntryWithoutNeighbors × Option RenderedEntryWithoutNeighbors) :
    RenderedEntry :=
  { slug := entry.slug
    title := entry.title
    description := entry.description
    explanation := entry.explanation
    featured_media := entry.featured_media
    local_media := entry.local_media
    youtube_videos := entry.youtube_videos
    size := entry.size
    domain := entry.domain
    primary_url := entry.primary_url
    secondary_urls := entry.secondary_urls
    press_urls := entry.press_urls
    completion_date := entry.completion_date
    completion_date_verbose := entry.completion_date_verbose
    completion_year := entry.completion_year
    team_size := entry.team_size
    involvement := entry.involvement
    mediums := entry.mediums
    primary_color := entry.primary_color
    favicon_path := entry.favicon_path
    top_image := entry.top_image
    visible := entry.visible
    previous_entry := previous_next.1
    next_entry := previous_next.2 }

/-- The final sections: only visible entries are kept, each promoted with
its neighbors from the lookup over the flattened pre-filter sequence. -/
def sections_with_entry_neighbors (d : PortfolioDir) : List Section :=
  (sorted_sections d).map (fun s =>
    { title := s.title
      description := s.description
      entries := (s.entries.filter (fun e => e.visible)).map (fun e =>
        _fill_entry_neighbors e (neighbor_lookup (flat_entries d) e))
      primary_color := s.primary_color
      logo := s.logo
      rank := s.rank })

/-- The copied resume file name: the fixed stem resume with the original
extension, when a resume path is configured. -/
def resume_file_name (d : PortfolioDir) : Option String :=
  d.pd.resume_path.map (fun p => "resume" ++ path_suffix p)

/-- discover_portfolio from load_portfolio.py over the validated on-disk
tree: render and rank-sort the sections, flatten the entries, assign
neighbors, filter visibility, and assemble the Portfolio. -/
def discover_portfolio (d : PortfolioDir) : Portfolio :=
  { title := d.pd.title
    description := render_markdown d.pd.description
    sections := sections_with_entry_neighbors d
    conclusion := render_markdown d.pd.conclusion
    contact_urls := _render_link_list (some d.pd.contact_urls)
    email := d.pd.email
    explanation := render_markdown d.pd.explanation
    header_top_image := rendered_media none d.pd.header_top_image
    header_bottom_image := rendered_media none d.pd.header_bottom_image
    icon := rendered_media (some "portfolio_icon.png") d.pd.icon
    resume_path := resume_file_name d
    portrait := rendered_media none d.pd.portrait
    header_background := rendered_media none d.pd.header_background }

/-- Projection of a RenderedEntry back to its neighbor-free base record. -/
def RenderedEntry.withoutNeighbors (e : RenderedEntry) : RenderedEntryWithoutNeighbors :=
  { slug := e.slug
    title := e.title
    description := e.description
    explanation := e.explanation
    featured_media := e.featured_media
    local_media := e.local_media
    youtube_videos := e.youtube_videos
    size := e.size
    domain := e.domain
    primary_url := e.primary_url
    secondary_urls := e.secondary_urls
    press_urls := e.press_urls
    completion_date := e.completion_date
    completion_date_verbose := e.completion_date_verbose
    completion_year := e.completion_year
    team_size := e.team_size
    involvement := e.involvement
    mediums := e.mediums
    primary_color := e.primary_color
    favicon_path := e.favicon_path
    top_image := e.top_image
    visible := e.visible }

/-! ## Sample on-disk trees used by concrete theorems -/

/-- A minimal validated entry descriptor with a given completion date and
visibility. -/
def sample_serialized_entry (dte : Date) (vis : Bool) : SerializedEntry :=
  { version_number := 0
    title := "t"
    description := "d."
    explanation := "e."
    featured_media := { label := "f.", path := "f.png" }
    local_media := none
    youtube_videos := none
    size := .small
    domain := .software
    primary_url := { label := "u.", link := "https://x" }
    secondary_urls := none
    press_urls := none
    completion_date := dte
    team_size := .solo
    involvement := "i."
    mediums := []
    visible := vis }

/-- A minimal entry directory. -/
def sample_entry_dir (dirName yamlStem : String) (dte : Date) (vis : Bool) : EntryDir :=
  { dirName := dirName
    yamlStem := yamlStem
    entry := sample_serialized_entry dte vis }

/-- A minimal validated section descriptor of a given rank. -/
def sample_section_desc (r : Int) : SerializedSectionDescription :=
  { version_number := 0
    title := "s"
    description := "sd."
    primary_color := "#fff"
    logo := { label := "l.", path := "l.png" }
    rank := r }

/-- A minimal validated portfolio descriptor. -/
def sample_portfolio_desc : SerializedPortfolioDescription :=
  { version_number := 0
    title := "p"
    description := "pd."
    explanation := "pe."
    conclusion := "pc."
    email := "a@b.c"
    contact_urls := []
    header_top_image := { label := "ht.", path := "ht.png" }
    header_bottom_image := { label := "hb.", path := "hb.png" }
    return_image := { label := "r.", path := "r.png" }
    icon := { label := "ic.", path := "ic.png" }
    resume_path := none
    portrait := { label := "po.", path := "po.png" }
    header_background := { label := "bg.", path := "bg.png" } }

/-- A tree whose one section holds two entry directories with identical
descriptor files: the rendered entries are equal values. -/
def dup_portfolio : PortfolioDir :=
  { pd := sample_portfolio_desc
    sectionDirs :=
      [{ dirName := "sec"
         yamlStem := "sec"
         sd := sample_section_desc 1
         entryDirs :=
           [sample_entry_dir "a" "proj" ⟨2020, 1, 1⟩ true,
            sample_entry_dir "b" "proj" ⟨2020, 1, 1⟩ true] }] }

/-- A tree whose one section holds a non-visible entry dated after a visible
one, so the hidden entry precedes the visible one in the flattened
sequence. -/
def hidden_portfolio : PortfolioDir :=
  { pd := sample_portfolio_desc
    sectionDirs :=
      [{ dirName := "sec"
         yamlStem := "sec"
         sd := sample_section_desc 1
         entryDirs :=
           [sample_entry_dir "h" "h" ⟨2021, 1, 1⟩ false,
            sample_entry_dir "v" "v" ⟨2020, 1, 1⟩ true] }] }

/-- A tree with two sections listed rank-2 first, all entries distinct and
visible, with out-of-order completion dates inside the sections. -/
def sample_portfolio : PortfolioDir :=
  { pd := sample_portfolio_desc
    sectionDirs :=
      [{ dirName := "s2"
         yamlStem := "s2"
         sd := sample_section_desc 2
         entryDirs :=
           [sample_entry_dir "d1" "p1" ⟨2020, 1, 1⟩ true,
            sample_entry_dir "d2" "p2" ⟨2021, 6, 15⟩ true,
            sample_entry_dir "d3" "p3" ⟨2019, 3, 3⟩ true] },
       { dirName := "s1"
         yamlStem := "s1"
         sd := sample_section_desc 1
         entryDirs :=
           [sample_entry_dir "d4" "p4" ⟨2018, 1, 1⟩ true,
            sample_entry_dir "d5" "p5" ⟨2022, 2, 2⟩ true] }] }

/-! ## Lemmas about the stable sort -/

theorem insert_sorted_perm (lt : α → α → Bool) (x : α) :
    ∀ l : List α, List.Perm (insert_sorted lt x l) (x :: l) := by
  intro l
  induction l with
  | nil => exact List.Perm.refl _
  | cons y ys ih =>
    simp only [insert_sorted]
    cases h : lt y x with
    | true =>
      rw [if_pos rfl]
      exact (List.Perm.cons y ih).trans (List.Perm.swap x y ys)
    | false =>
      rw [if_neg (by simp)]

theorem stable_sort_perm (lt : α → α → Bool) :
    ∀ l : List α, List.Perm (stable_sort lt l) l := by
  intro l
  induction l with
  | nil => exact List.Perm.refl _
  | cons x xs ih =>
    exact (insert_sorted_perm lt x (stable_sort lt xs)).trans (List.Perm.cons x ih)

theorem mem_insert_sorted (lt : α → α → Bool) (x a : α) (l : List α) :
    a ∈ insert_sorted lt x l ↔ a = x ∨ a ∈ l := by
  rw [(insert_sorted_perm lt x l).mem_iff]
  simp

theorem insert_sorted_pairwise (lt : α → α → Bool)
    (hasymm : ∀ a b, lt a b = true → lt b a = false)
    (hneg : ∀ a b c, lt b a = false → lt c b = false → lt c a = false)
    (x : α) :
    ∀ l : List α, l.Pairwise (fun a b => lt b a = false) →
      (insert_sorted lt x l).Pairwise (fun a b => lt b a = false) := by
  intro l
  induction l with
  | nil =>
    intro _
    simp [insert_sorted]
  | cons y ys ih =>
    intro hp
    rw [List.pairwise_cons] at hp
    obtain ⟨hy, hys⟩ := hp
    simp only [insert_sorted]
    cases h : lt y x with
    | true =>
      rw [if_pos rfl]
      rw [List.pairwise_cons]
      constructor
      · intro z hz
        rcases (mem_insert_sorted lt x z ys).mp hz with hzx | hzys
        · subst hzx
          exact hasymm y z h
        · exact hy z hzys
      · exact ih hys
    | false =>
      rw [if_neg (by simp)]
      rw [List.pairwise_cons]
      constructor
      · intro z hz
        rcases List.mem_cons.mp hz with hzy | hzys
        · subst hzy
          exact h
        · exact hneg x y z h (hy z hzys)
      · rw [List.pairwise_cons]
        exact ⟨hy, hys⟩

theorem stable_sort_pairwise (lt : α → α → Bool)
    (hasymm : ∀ a b, lt a b = true → lt b a = false)
    (hneg : ∀ a b c, lt b a = false → lt c b = false → lt c a = false) :
    ∀ l : List α, (stable_sort lt l).Pairwise (fun a b => lt b a = false) := by
  intro l
  induction l with
  | nil => simp [stable_sort]
  | cons x xs ih => exact insert_sorted_pairwise lt hasymm hneg x _ ih

theorem insert_sorted_filter_pos (lt : α → α → Bool) (q : α → Bool) (x : α)
    (hx : q x = true) (hqx : ∀ a, q a = true → lt a x = false) :
    ∀ l : List α, (insert_sorted lt x l).filter q = x :: l.filter q := by
  intro l
  induction l with
  | nil => simp [insert_sorted, hx]
  | cons y ys ih =>
    simp only [insert_sorted]
    cases h : lt y x with
    | true =>
      have hqy : q y = false := by
        cases hq : q y with
        | false => rfl
        | true => exact absurd (hqx y hq) (by simp [h])
      rw [if_pos rfl]
      simp only [List.filter_cons, hqy]
      exact ih
    | false =>
      rw [if_neg (by simp)]
      simp [List.filter_cons, hx]

theorem insert_sorted_filter_neg (lt : α → α → Bool) (q : α → Bool) (x : α)
    (hx : q x = false) :
    ∀ l : List α, (insert_sorted lt x l).filter q = l.filter q := by
  intro l
  induction l with
  | nil => simp [insert_sorted, hx]
  | cons y ys ih =>
    simp only [insert_sorted]
    cases h : lt y x with
    | true =>
      rw [if_pos rfl]
      simp only [List.filter_cons]
      rw [ih]
    | false =>
      rw [if_neg (by simp)]
      simp [List.filter_cons, hx]

theorem stable_sort_filter (lt : α → α → Bool) (q : α → Bool)
    (hq : ∀ a b, q a = true → q b = true → lt a b = false) :
    ∀ l : List α, (stable_sort lt l).filter q = l.filter q := by
  intro l
  induction l with
  | nil => rfl
  | cons x xs ih =>
    simp only [stable_sort]
    cases hx : q x with
    | true =>
      rw [insert_sorted_filter_pos lt q x hx (fun a ha => hq a x ha hx), ih,
        List.filter_cons, hx]
      simp
    | false =>
      rw [insert_sorted_filter_neg lt q x hx, ih, List.filter_cons, hx]
      simp

/-! ## Comparator facts -/

theorem rank_lt_asymm : ∀ a b, rank_lt a b = true → rank_lt b a = false := by
  intro a b h
  simp only [rank_lt, decide_eq_true_eq] at h
  simp only [rank_lt, decide_eq_false_iff_not]
  omega

theorem rank_lt_negtrans :
    ∀ a b c, rank_lt b a = false → rank_lt c b = false → rank_lt c a = false := by
  intro a b c h1 h2
  simp only [rank_lt, decide_eq_false_iff_not] at *
  omega

theorem date_desc_asymm : ∀ a b, date_desc a b = true → date_desc b a = false := by
  intro a b h
  simp only [date_desc, Date.lt, decide_eq_true_eq] at h
  simp only [date_desc, Date.lt, decide_eq_false_iff_not]
  omega

theorem date_desc_negtrans :
    ∀ a b c, date_desc b a = false → date_desc c b = false → date_desc c a = false := by
  intro a b c h1 h2
  simp only [date_desc, Date.lt, decide_eq_false_iff_not] at *
  omega

theorem chars_lt_asymm : ∀ l1 l2, chars_lt l1 l2 = true → chars_lt l2 l1 = false := by
  intro l1
  induction l1 with
  | nil =>
    intro l2 h
    cases l2 with
    | nil => rfl
    | cons b bs => rfl
  | cons a as ih =>
    intro l2 h
    cases l2 with
    | nil => exact absurd h (by simp [chars_lt])
    | cons b bs =>
      simp only [chars_lt] at h ⊢
      split_ifs at h ⊢ <;> first | rfl | omega | exact ih bs h

theorem chars_lt_negtrans :
    ∀ l1 l2 l3, chars_lt l2 l1 = false → chars_lt l3 l2 = false →
      chars_lt l3 l1 = false := by
  intro l1
  induction l1 with
  | nil =>
    intro l2 l3 _ _
    cases l3 with
    | nil => rfl
    | cons c cs => rfl
  | cons a as ih =>
    intro l2 l3 h12 h23
    cases l2 with
    | nil => exact absurd h12 (by simp [chars_lt])
    | cons b bs =>
      cases l3 with
      | nil => exact absurd h23 (by simp [chars_lt])
      | cons c cs =>
        simp only [chars_lt] at h12 h23 ⊢
        split_ifs at h12 h23 ⊢ <;>
          first
          | rfl
          | omega
          | exact ih bs cs h12 h23

theorem str_lt_asymm : ∀ a b : String, str_lt a b = true → str_lt b a = false := by
  intro a b h
  exact chars_lt_asymm a.data b.data h

theorem str_lt_negtrans :
    ∀ a b c : String, str_lt b a = false → str_lt c b = false → str_lt c a = false := by
  intro a b c h1 h2
  exact chars_lt_negtrans a.data b.data c.data h1 h2

/-! ## Facts about the neighbor lookup -/

theorem filter_enumFrom_not_mem {α : Type} [DecidableEq α] (e : α) :
    ∀ (l : List α) (n : Nat), e ∉ l →
      (l.enumFrom n).filter (fun p => decide (p.2 = e)) = [] := by
  intro l
  induction l with
  | nil =>
    intro n _
    rfl
  | cons x xs ih =>
    intro n hnot
    have hx : ¬ x = e := fun hxe => hnot (hxe ▸ List.mem_cons_self x xs)
    have hxs : e ∉ xs := fun hmem => hnot (List.mem_cons_of_mem x hmem)
    simp only [List.enumFrom, List.filter_cons]
    simp only [decide_eq_true_eq]
    rw [if_neg (by simpa using hx)]
    exact ih (n + 1) hxs

theorem filter_enumFrom_nodup {α : Type} [DecidableEq α] :
    ∀ (l : List α), l.Nodup → ∀ (i : Nat) (h : i < l.length) (n : Nat),
      (l.enumFrom n).filter (fun p => decide (p.2 = l.get ⟨i, h⟩))
        = [(n + i, l.get ⟨i, h⟩)] := by
  intro l
  induction l with
  | nil =>
    intro _ i h
    exact absurd h (by simp)
  | cons x xs ih =>
    intro hnd i h n
    rw [List.nodup_cons] at hnd
    obtain ⟨hx, hnd⟩ := hnd
    cases i with
    | zero =>
      simp only [List.get, List.enumFrom, List.filter_cons, decide_eq_true_eq]
      rw [if_pos trivial, filter_enumFrom_not_mem x xs (n + 1) hx]
      simp
    | succ i =>
      have hmem : (x :: xs).get ⟨i + 1, h⟩ ∈ xs := by
        simp only [List.get]
        exact List.get_mem xs i _
      have hxe : ¬ x = (x :: xs).get ⟨i + 1, h⟩ := by
        intro hcontra
        exact hx (hcontra ▸ hmem)
      simp only [List.enumFrom, List.filter_cons, decide_eq_true_eq]
      rw [if_neg (by simpa using hxe)]
      simp only [List.get]
      rw [ih hnd i (by simpa using h) (n + 1)]
      congr 1
      simp
      omega

theorem neighbor_lookup_nodup (entries : List RenderedEntryWithoutNeighbors)
    (hnd : entries.Nodup) (i : Nat) (h : i < entries.length) :
    neighbor_lookup entries (entries.get ⟨i, h⟩)
      = (at_index entries ((i : Int) - 1), at_index entries ((i : Int) + 1)) := by
  unfold neighbor_lookup
  have henum : entries.enum = entries.enumFrom 0 := rfl
  rw [henum, filter_enumFrom_nodup entries hnd i h 0]
  simp

theorem at_index_sub_one (entries : List RenderedEntryWithoutNeighbors) (i : Nat) :
    at_index entries ((i : Int) - 1)
      = if i = 0 then none else entries.get? (i - 1) := by
  cases i with
  | zero => rfl
  | succ k =>
    unfold at_index
    rw [if_neg (by omega)]
    have : ((((k : Nat) + 1 : Nat) : Int) - 1).toNat = k := by omega
    rw [this]
    simp

theorem at_index_add_one (entries : List RenderedEntryWithoutNeighbors) (i : Nat) :
    at_index entries ((i : Int) + 1) = entries.get? (i + 1) := by
  unfold at_index
  rw [if_neg (by omega)]
  have : (((i : Nat) : Int) + 1).toNat = i + 1 := by omega
  rw [this]

/-! ## Frame facts about _fill_entry_neighbors -/

theorem fill_withoutNeighbors (entry : RenderedEntryWithoutNeighbors)
    (pn : Option RenderedEntryWithoutNeighbors × Option RenderedEntryWithoutNeighbors) :
    (_fill_entry_neighbors entry pn).withoutNeighbors = entry := rfl

theorem fill_neighbors_pair (entry : RenderedEntryWithoutNeighbors)
    (pn : Option RenderedEntryWithoutNeighbors × Option RenderedEntryWithoutNeighbors) :
    ((_fill_entry_neighbors entry pn).previous_entry,
     (_fill_entry_neighbors entry pn).next_entry) = pn := rfl

/-! ## Date order facts -/

theorem date_not_lt_le (a b : Date) : ¬ Date.lt a b → Date.le b a := by
  intro h
  cases a with
  | mk ay am ad =>
    cases b with
    | mk by1 bm bd =>
      simp only [Date.lt, Date.le, Date.mk.injEq, not_or, not_and, not_lt] at *
      omega

/-! ## Claim theorems -/

/-- C10: _fill_entry_neighbors returns a RenderedEntry whose every field
shared with the input RenderedEntryWithoutNeighbors equals the
corresponding input field unchanged; only previous_entry and next_entry
are added, set to the two components of the given neighbor pair. -/
theorem fill_entry_neighbors_frame (entry : RenderedEntryWithoutNeighbors)
    (previous_next : Option RenderedEntryWithoutNeighbors × Option RenderedEntryWithoutNeighbors) :
    (_fill_entry_neighbors entry previous_next).slug = entry.slug
    ∧ (_fill_entry_neighbors entry previous_next).title = entry.title
    ∧ (_fill_entry_neighbors entry previous_next).description = entry.description
    ∧ (_fill_entry_neighbors entry previous_next).explanation = entry.explanation
    ∧ (_fill_entry_neighbors entry previous_next).featured_media = entry.featured_media
    ∧ (_fill_entry_neighbors entry previous_next).local_media = entry.local_media
    ∧ (_fill_entry_neighbors entry previous_next).youtube_videos = entry.youtube_videos
    ∧ (_fill_entry_neighbors entry previous_next).size = entry.size
    ∧ (_fill_entry_neighbors entry previous_next).domain = entry.domain
    ∧ (_fill_entry_neighbors entry previous_next).primary_url = entry.primary_url
    ∧ (_fill_entry_neighbors entry previous_next).secondary_urls = entry.secondary_urls
    ∧ (_fill_entry_neighbors entry previous_next).press_urls = entry.press_urls
    ∧ (_fill_entry_neighbors entry previous_next).completion_date = entry.completion_date
    ∧ (_fill_entry_neighbors entry previous_next).completion_date_verbose
        = entry.completion_date_verbose
    ∧ (_fill_entry_neighbors entry previous_next).completion_year = entry.completion_year
    ∧ (_fill_entry_neighbors entry previous_next).team_size = entry.team_size
    ∧ (_fill_entry_neighbors entry previous_next).involvement = entry.involvement
    ∧ (_fill_entry_neighbors entry previous_next).mediums = entry.mediums
    ∧ (_fill_entry_neighbors entry previous_next).primary_color = entry.primary_color
    ∧ (_fill_entry_neighbors entry previous_next).favicon_path = entry.favicon_path
    ∧ (_fill_entry_neighbors entry previous_next).top_image = entry.top_image
    ∧ (_fill_entry_neighbors entry previous_next).visible = entry.visible
    ∧ (_fill_entry_neighbors entry previous_next).previous_entry = previous_next.1
    ∧ (_fill_entry_neighbors entry previous_next).next_entry = previous_next.2 :=
  ⟨rfl, rfl, rfl, rfl, rfl, rfl, rfl, rfl, rfl, rfl, rfl, rfl, rfl, rfl, rfl,
   rfl, rfl, rfl, rfl, rfl, rfl, rfl, rfl, rfl⟩

/-- C4 (amended): the slug of a rendered entry equals the name of the entry
directory's YAML descriptor file with the extension removed, which need not
be the name of the entry directory itself. -/
theorem read_entry_slug (primary_color : String)
    (return_button : RenderedLocalMedia) (ed : EntryDir) :
    (_read_entry_from_disk primary_color return_button ed).slug = ed.yamlStem := rfl

/-- C4 counterexample: an entry directory named alpha whose descriptor file
is beta.yaml renders with slug beta, not the directory name alpha, so the
slug is not the entry directory's name. -/
theorem read_entry_slug_counterexample :
    (_read_entry_from_disk "#fff" (rendered_media none sample_portfolio_desc.return_image)
        (sample_entry_dir "alpha" "beta" ⟨2020, 1, 1⟩ true)).slug = "beta"
    ∧ (sample_entry_dir "alpha" "beta" ⟨2020, 1, 1⟩ true).dirName = "alpha"
    ∧ (_read_entry_from_disk "#fff" (rendered_media none sample_portfolio_desc.return_image)
        (sample_entry_dir "alpha" "beta" ⟨2020, 1, 1⟩ true)).slug
      ≠ (sample_entry_dir "alpha" "beta" ⟨2020, 1, 1⟩ true).dirName := by
  refine ⟨rfl, rfl, ?_⟩
  decide

/-- C8: _find_yaml returns the unique file with the yaml extension when the
directory holds exactly one, and errors when it holds none or more than
one. -/
theorem find_yaml_spec (directory : List FileName) :
    (∀ y, directory.filter (fun f => f.ext = "yaml") = [y] →
      _find_yaml directory = .ok y)
    ∧ (directory.filter (fun f => f.ext = "yaml") = [] →
        ∃ msg, _find_yaml directory = .error msg)
    ∧ (1 < (directory.filter (fun f => f.ext = "yaml")).length →
        ∃ msg, _find_yaml directory = .error msg) := by
  refine ⟨?_, ?_, ?_⟩
  · intro y hy
    unfold _find_yaml
    rw [hy]
    rfl
  · intro hnone
    unfold _find_yaml
    rw [hnone]
    exact ⟨"No yaml found in directory", rfl⟩
  · intro hmany
    unfold _find_yaml
    rw [if_pos hmany]
    exact ⟨"Found too many yaml files in dir", rfl⟩

/-- C8 witness: concrete directories with exactly one, zero, and two yaml
files. -/
theorem find_yaml_spec_witness :
    _find_yaml [⟨"img", "png"⟩, ⟨"portfolio", "yaml"⟩] = .ok ⟨"portfolio", "yaml"⟩
    ∧ (∃ msg, _find_yaml [⟨"img", "png"⟩] = .error msg)
    ∧ (∃ msg, _find_yaml [⟨"portfolio", "yaml"⟩, ⟨"extra", "yaml"⟩] = .error msg) :=
  ⟨(find_yaml_spec [⟨"img", "png"⟩, ⟨"portfolio", "yaml"⟩]).1 ⟨"portfolio", "yaml"⟩ (by decide),
   (find_yaml_spec [⟨"img", "png"⟩]).2.1 (by decide),
   (find_yaml_spec [⟨"portfolio", "yaml"⟩, ⟨"extra", "yaml"⟩]).2.2 (by decide)⟩

/-- C9 (amended): _render_mediums title-cases every tag value, applies the
acronym replacement table, and returns the results in sorted string order;
duplicates in the input are preserved, not removed.  The example tags render
as the sorted pair stated by the claim. -/
theorem render_mediums_spec :
    (∀ mediums : List Medium,
      List.Pairwise (fun a b => str_lt b a = false) (_render_mediums mediums))
    ∧ (∀ mediums : List Medium,
        List.Perm (_render_mediums mediums)
          ((mediums.map (fun m => _capitalize_string m.val)).map convert_medium))
    ∧ _render_mediums [Medium.printer_3d, Medium.pcb_electronics]
        = ["3D Printer", "PCB Electronics"] := by
  refine ⟨?_, ?_, ?_⟩
  · intro mediums
    exact stable_sort_pairwise str_lt str_lt_asymm str_lt_negtrans _
  · intro mediums
    exact stable_sort_perm str_lt _
  · decide

/-- C9 counterexample: the tag list holding python twice renders to a list
holding Python twice, so the rendered mediums are not deduplicated. -/
theorem render_mediums_counterexample :
    _render_mediums [Medium.python, Medium.python] = ["Python", "Python"]
    ∧ ¬ (_render_mediums [Medium.python, Medium.python]).Nodup := by
  constructor
  · decide
  · decide

/-- C6: a raw mapping holding a key outside the declared fields of the
target record type makes read_portfolio_element fail with the validation
error naming the record kind and the file; unknown keys are never silently
accepted. -/
theorem unknown_key_rejected (kind : ElementKind) (yaml_path : String)
    (raw : List (String × String)) (key : String)
    (hmem : key ∈ raw.map Prod.fst)
    (hundecl : (declared_fields kind).contains key = false) :
    read_portfolio_element kind yaml_path raw
      = .error (validation_message kind yaml_path) := by
  have hall : raw.all (fun kv => (declared_fields kind).contains kv.1) = false := by
    rcases List.mem_map.mp hmem with ⟨kv, hkv, rfl⟩
    rw [List.all_eq_false]
    exact ⟨kv, hkv, by simpa using hundecl⟩
  unfold read_portfolio_element
  rw [hall, if_neg (by simp)]

/-- C6 witness: a concrete entry mapping with the unknown key oops is
rejected. -/
theorem unknown_key_rejected_witness :
    read_portfolio_element .entry "entry.yaml" [("description", "d."), ("oops", "1")]
      = .error (validation_message .entry "entry.yaml") :=
  unknown_key_rejected .entry "entry.yaml" [("description", "d."), ("oops", "1")]
    "oops" (by decide) (by decide)

/-- C7: when the description value of a raw mapping does not end with a
period, read_portfolio_element fails with the validation error naming the
record kind and the file; when it ends with a period, the ends_with_period
check passes returning the value unchanged, and any successful parse
returns that value. -/
theorem description_period_check (kind : ElementKind) (yaml_path : String)
    (raw : List (String × String)) (v : String)
    (hv : raw.lookup "description" = some v) :
    (ends_in_period v = false →
      read_portfolio_element kind yaml_path raw
        = .error (validation_message kind yaml_path))
    ∧ (ends_in_period v = true →
        ends_with_period v = .ok v
        ∧ ∀ out, read_portfolio_element kind yaml_path raw = .ok out → out = v) := by
  constructor
  · intro hne
    unfold read_portfolio_element
    cases hall : raw.all (fun kv => (declared_fields kind).contains kv.1) with
    | false => rw [if_neg (by simp)]
    | true =>
      rw [if_pos rfl, hv]
      simp [validated_string, ends_with_period, hne, Except.map]
  · intro hpe
    constructor
    · simp [ends_with_period, hpe]
    · intro out hout
      unfold read_portfolio_element at hout
      cases hall : raw.all (fun kv => (declared_fields kind).contains kv.1) with
      | false =>
        rw [hall, if_neg (by simp)] at hout
        exact absurd hout (by simp)
      | true =>
        rw [hall, if_pos rfl, hv] at hout
        simp [validated_string, ends_with_period, hpe, warn_on_misspelling,
          Except.map] at hout
        exact hout.symm

/-- C7 witness: a description without a trailing period is rejected with
the wrapper error, and one with a trailing period passes the check
unchanged. -/
theorem description_period_check_witness :
    read_portfolio_element .entry "entry.yaml" [("description", "nope")]
      = .error (validation_message .entry "entry.yaml")
    ∧ ends_with_period "yes." = .ok "yes." :=
  ⟨(description_period_check .entry "entry.yaml" [("description", "nope")] "nope"
      (by decide)).1 (by decide),
   ((description_period_check .entry "entry.yaml" [("description", "yes.")] "yes."
      (by decide)).2 (by decide)).1⟩

/-! ## Media cache lemmas and claim -/

theorem has_file_write (dir : MediaDir) (name : String) (content : Nat) :
    has_file (write_file dir name content) name = true := by
  simp [has_file, write_file]

theorem render_local_media_value (transform : Nat → Nat) (dir : MediaDir)
    (new_file_name : Option String) (image_config : ImageConfig)
    (source_bytes : Nat) (local_media : LocalMedia) :
    (render_local_media transform dir new_file_name image_config
        source_bytes local_media).value
      = rendered_media new_file_name local_media := by
  unfold render_local_media
  split
  · rfl
  · rfl

theorem render_local_media_hit (transform : Nat → Nat) (dir : MediaDir)
    (new_file_name : Option String) (image_config : ImageConfig)
    (source_bytes : Nat) (local_media : LocalMedia)
    (hf : image_config.force_rewrite = false)
    (hex : has_file dir (output_name new_file_name local_media) = true) :
    render_local_media transform dir new_file_name image_config source_bytes local_media
      = { value := rendered_media new_file_name local_media
          dir := dir
          source_reads := 0
          disk_writes := 0 } := by
  unfold render_local_media
  rw [if_neg]
  · rfl
  · simp [hex, hf]

theorem render_local_media_has_file (transform : Nat → Nat) (dir : MediaDir)
    (new_file_name : Option String) (image_config : ImageConfig)
    (source_bytes : Nat) (local_media : LocalMedia) :
    has_file (render_local_media transform dir new_file_name image_config
        source_bytes local_media).dir (output_name new_file_name local_media) = true := by
  unfold render_local_media
  split
  · exact has_file_write dir _ _
  · next h =>
    push_neg at h
    exact h.1

/-- C5: with the force-rewrite flag unset, a render_local_media call whose
computed output name already exists in the destination directory performs
no source read and no disk write, leaves the directory untouched and
returns the canonical RenderedLocalMedia value; consequently the second of
two identical calls always returns the same value as the first, changes no
file, and performs no read or write, so the output bytes on disk are
identical after the second call. -/
theorem render_local_media_cache (transform : Nat → Nat) (dir : MediaDir)
    (new_file_name : Option String) (image_config : ImageConfig)
    (source_bytes : Nat) (local_media : LocalMedia)
    (hf : image_config.force_rewrite = false) :
    (has_file dir (output_name new_file_name local_media) = true →
      render_local_media transform dir new_file_name image_config source_bytes local_media
        = { value := rendered_media new_file_name local_media
            dir := dir
            source_reads := 0
            disk_writes := 0 })
    ∧ (render_local_media transform dir new_file_name image_config
          source_bytes local_media).value
        = rendered_media new_file_name local_media
    ∧ render_local_media transform
        (render_local_media transform dir new_file_name image_config
          source_bytes local_media).dir
        new_file_name image_config source_bytes local_media
      = { value := rendered_media new_file_name local_media
          dir := (render_local_media transform dir new_file_name image_config
            source_bytes local_media).dir
          source_reads := 0
          disk_writes := 0 } := by
  refine ⟨?_, ?_, ?_⟩
  · intro hex
    exact render_local_media_hit transform dir new_file_name image_config
      source_bytes local_media hf hex
  · exact render_local_media_value transform dir new_file_name image_config
      source_bytes local_media
  · exact render_local_media_hit transform _ new_file_name image_config
      source_bytes local_media hf
      (render_local_media_has_file transform dir new_file_name image_config
        source_bytes local_media)

/-- C5 witness: a directory already holding the output file img.png; the
call is a no-op returning the canonical value. -/
theorem render_local_media_cache_witness :
    render_local_media (fun b => b + 1) ⟨[("img.png", 7)]⟩ none
        ⟨(100, 100), 95, false⟩ 3 ⟨"lbl.", "img.png"⟩
      = { value := rendered_media none ⟨"lbl.", "img.png"⟩
          dir := ⟨[("img.png", 7)]⟩
          source_reads := 0
          disk_writes := 0 } :=
  (render_local_media_cache (fun b => b + 1) ⟨[("img.png", 7)]⟩ none
      ⟨(100, 100), 95, false⟩ 3 ⟨"lbl.", "img.png"⟩ rfl).1 (by decide)

/-- C2: every entry listed in a section of the Portfolio returned by
discover_portfolio is visible, so an entry with visible false appears in no
section entry list; yet, as the concrete hidden_portfolio tree shows, a
non-visible entry can still be referenced as the previous neighbor of an
adjacent visible entry, because neighbors are assigned over the pre-filter
flattened sequence. -/
theorem visibility_filter_spec :
    (∀ d : PortfolioDir, ∀ s ∈ (discover_portfolio d).sections,
      ∀ e ∈ s.entries, e.visible = true)
    ∧ ((discover_portfolio hidden_portfolio).sections.get? 0
        |>.bind (fun s => s.entries.get? 0)
        |>.bind (fun e => e.previous_entry)
        |>.map (fun p => p.visible)) = some false := by
  constructor
  · intro d s hs e he
    have hs' : s ∈ sections_with_entry_neighbors d := hs
    unfold sections_with_entry_neighbors at hs'
    rcases List.mem_map.mp hs' with ⟨s0, _, rfl⟩
    have he' : e ∈ (s0.entries.filter (fun e => e.visible)).map
        (fun e => _fill_entry_neighbors e (neighbor_lookup (flat_entries d) e)) := he
    rcases List.mem_map.mp he' with ⟨e0, he0, rfl⟩
    exact (List.mem_filter.mp he0).2
  · decide

/-- C2 witness: the visible entry of hidden_portfolio listed in the final
portfolio is visible. -/
theorem visibility_filter_spec_witness :
    (((discover_portfolio hidden_portfolio).sections.getD 0 default).entries.getD 0
        default).visible = true :=
  visibility_filter_spec.1 hidden_portfolio
    ((discover_portfolio hidden_portfolio).sections.getD 0 default) (by decide)
    (((discover_portfolio hidden_portfolio).sections.getD 0 default).entries.getD 0
      default) (by decide)

/-- C3: in the Portfolio returned by discover_portfolio the sections appear
sorted by rank ascending and the entries of every section appear sorted by
completion date descending; both sorts are stable: restricting the section
sort to any one rank value, or the entry sort of a section to any one
completion date, reproduces the input order. -/
theorem sections_and_entries_sorted (d : PortfolioDir) :
    List.Pairwise (fun s1 s2 => s1.rank ≤ s2.rank) (discover_portfolio d).sections
    ∧ (∀ s ∈ (discover_portfolio d).sections,
        List.Pairwise (fun e1 e2 => Date.le e2.completion_date e1.completion_date)
          s.entries)
    ∧ (∀ r : Int, (sorted_sections d).filter (fun s => decide (s.rank = r))
        = (unsorted_sections d).filter (fun s => decide (s.rank = r)))
    ∧ (∀ (ti : RenderedLocalMedia) (sd : SectionDir) (dte : Date),
        (_read_section_from_disk ti sd).entries.filter
            (fun e => decide (e.completion_date = dte))
          = (entries_unsorted ti sd).filter
              (fun e => decide (e.completion_date = dte))) := by
  refine ⟨?_, ?_, ?_, ?_⟩
  · show List.Pairwise _ (sections_with_entry_neighbors d)
    unfold sections_with_entry_neighbors
    rw [List.pairwise_map]
    have hp := stable_sort_pairwise rank_lt rank_lt_asymm rank_lt_negtrans
      (unsorted_sections d)
    exact hp.imp (fun h => by
      simp only [rank_lt, decide_eq_false_iff_not] at h
      dsimp only
      omega)
  · intro s hs
    have hs' : s ∈ sections_with_entry_neighbors d := hs
    unfold sections_with_entry_neighbors at hs'
    rcases List.mem_map.mp hs' with ⟨s0, hs0, rfl⟩
    have hs0m : s0 ∈ unsorted_sections d :=
      ((stable_sort_perm rank_lt (unsorted_sections d)).mem_iff).mp hs0
    rcases List.mem_map.mp hs0m with ⟨sd, _, rfl⟩
    have hp : List.Pairwise (fun a b => date_desc b a = false)
        (_read_section_from_disk (return_button_image d) sd).entries :=
      stable_sort_pairwise date_desc date_desc_asymm date_desc_negtrans _
    have hp2 := hp.filter (fun e => e.visible)
    show List.Pairwise _ (((_read_section_from_disk (return_button_image d) sd).entries.filter
      (fun e => e.visible)).map
        (fun e => _fill_entry_neighbors e (neighbor_lookup (flat_entries d) e)))
    rw [List.pairwise_map]
    exact hp2.imp (fun h => date_not_lt_le _ _ (of_decide_eq_false h))
  · intro r
    exact stable_sort_filter rank_lt (fun s => decide (s.rank = r))
      (fun a b ha hb => by
        have ha2 : a.rank = r := of_decide_eq_true ha
        have hb2 : b.rank = r := of_decide_eq_true hb
        simp only [rank_lt, decide_eq_false_iff_not, ha2, hb2]
        omega)
      (unsorted_sections d)
  · intro ti sd dte
    exact stable_sort_filter date_desc (fun e => decide (e.completion_date = dte))
      (fun a b ha hb => by
        have ha2 : a.completion_date = dte := of_decide_eq_true ha
        have hb2 : b.completion_date = dte := of_decide_eq_true hb
        simp only [date_desc, decide_eq_false_iff_not, ha2, hb2, Date.lt]
        omega)
      (entries_unsorted ti sd)

/-- C3 witness: the rank-2-first sample tree renders rank-sorted and the
first section of the result has date-sorted entries. -/
theorem sections_and_entries_sorted_witness :
    List.Pairwise (fun e1 e2 => Date.le e2.completion_date e1.completion_date)
      (((discover_portfolio sample_portfolio).sections.getD 0 default).entries) :=
  (sections_and_entries_sorted sample_portfolio).2.1
    ((discover_portfolio sample_portfolio).sections.getD 0 default) (by decide)

/-- C1 (amended): provided the flattened, section-ordered, pre-filter entry
sequence holds no two equal entry values, the neighbor lookup used by
discover_portfolio maps the entry at index 0 to no previous neighbor, the
entry at the last index to no next neighbor, and every interior entry at
index i to the entries at indices i - 1 and i + 1; and every entry listed
in the returned portfolio carries exactly the neighbor pair the lookup
assigns to its neighbor-free base record.  Without the no-duplicate proviso
the indexwise statement fails, because the lookup dict keyed by entry
values is overwritten at a duplicate. -/
theorem neighbor_invariant (d : PortfolioDir) (hnd : (flat_entries d).Nodup) :
    (∀ (i : Nat) (h : i < (flat_entries d).length),
      neighbor_lookup (flat_entries d) ((flat_entries d).get ⟨i, h⟩)
        = ((if i = 0 then none else (flat_entries d).get? (i - 1)),
           (flat_entries d).get? (i + 1)))
    ∧ (∀ s ∈ (discover_portfolio d).sections, ∀ re ∈ s.entries,
        (re.previous_entry, re.next_entry)
          = neighbor_lookup (flat_entries d) re.withoutNeighbors) := by
  constructor
  · intro i h
    rw [neighbor_lookup_nodup (flat_entries d) hnd i h, at_index_sub_one,
      at_index_add_one]
  · intro s hs re hre
    have hs' : s ∈ sections_with_entry_neighbors d := hs
    unfold sections_with_entry_neighbors at hs'
    rcases List.mem_map.mp hs' with ⟨s0, _, rfl⟩
    have hre' : re ∈ (s0.entries.filter (fun e => e.visible)).map
        (fun e => _fill_entry_neighbors e (neighbor_lookup (flat_entries d) e)) := hre
    rcases List.mem_map.mp hre' with ⟨e0, _, rfl⟩
    rw [fill_withoutNeighbors]
    exact fill_neighbors_pair e0 _

/-- C1 witness: in the duplicate-free sample tree the entry at flattened
index 2 is assigned the entries at indices 1 and 3 as neighbors. -/
theorem neighbor_invariant_witness :
    neighbor_lookup (flat_entries sample_portfolio)
        ((flat_entries sample_portfolio).get ⟨2, by decide⟩)
      = ((flat_entries sample_portfolio).get? 1,
         (flat_entries sample_portfolio).get? 3) := by
  have h := (neighbor_invariant sample_portfolio (by decide)).1 2 (by decide)
  simpa using h

/-- C1 counterexample: in dup_portfolio two entry directories render to
equal entry values, the flattened pre-filter sequence has two entries, and
the first listed entry of the first rendered section is the entry at
flattened index 0, yet it carries a previous neighbor, contradicting the
claim that the entry at index 0 has none: the lookup keyed by entry values
was overwritten at the later duplicate occurrence. -/
theorem neighbor_invariant_counterexample :
    (flat_entries dup_portfolio).length = 2
    ∧ ((discover_portfolio dup_portfolio).sections.get? 0
        |>.bind (fun s => s.entries.get? 0)
        |>.map (fun e => e.withoutNeighbors)) = (flat_entries dup_portfolio).get? 0
    ∧ ((discover_portfolio dup_portfolio).sections.get? 0
        |>.bind (fun s => s.entries.get? 0)
        |>.map (fun e => e.previous_entry.isSome)) = some true := by
  refine ⟨by decide, by decide, by decide⟩
